import Mathlib

/-!
# FbxRoughMetMaterialInfo::From

A shallow embedding of `src/fbx/FbxRoughMetMaterialInfo.cpp`: the resolver that
turns one FBX surface material into a metallic-roughness material record.

* A finite `FbxDouble` is modelled by the rational it denotes; the product of
  lines 105-106 is exact in the model, so no claim rests on a product other than
  by 1.
* The constructor of the record is declared in a header that is not among the
  sources: `From` takes it as a parameter.
* A `const FbxFileTexture*` is modelled by `Option FbxFileTexture`, where a
  texture is its identity (a number) and `none` is `nullptr`.
* What `fmt::printf` writes is modelled by the list of the messages printed, in
  the order of the calls.
-/

namespace FBX2glTF

/-! ## The FBX SDK types the resolver reads -/

/-- A finite `FbxDouble` (an IEEE double) is modelled by the rational it denotes.
The only arithmetic of the source is the product of lines 105-106. The model
computes it exactly, which is the product of doubles where that one is exact, as
it is when an operand is 1; rounding, infinities and NaN are not modelled, and no
claim below rests on a product other than by 1. -/
abbrev FbxDouble := ℚ

abbrev FbxString := String

/-- The identity of a texture object of the scene (the address the pointer holds). -/
abbrev FbxFileTexture := Nat

structure FbxDouble3 where
  x : FbxDouble
  y : FbxDouble
  z : FbxDouble
deriving DecidableEq, Repr

structure FbxVector4 where
  x : FbxDouble
  y : FbxDouble
  z : FbxDouble
  w : FbxDouble
deriving DecidableEq, Repr

/-- The converting constructor `FbxVector4(const FbxDouble3&)` of the SDK, used by
`res->colBase = getVec(...)`: the three components are copied, the fourth is 1. -/
def FbxVector4.ofDouble3 (v : FbxDouble3) : FbxVector4 :=
  ⟨v.x, v.y, v.z, 1⟩

/-- The first three components of a vector4. -/
def FbxVector4.xyz (v : FbxVector4) : FbxDouble3 :=
  ⟨v.x, v.y, v.z⟩

/-- The data type a property declares (`GetPropertyDataType`). -/
inductive FbxDataType where
  | FbxUndefinedDT
  | FbxBoolDT
  | FbxDoubleDT
  | FbxDouble3DT
  | FbxStringDT
  | FbxCompoundDT
deriving DecidableEq, Repr

/-- What the accessors of one property handle return: `IsValid()`,
`GetPropertyDataType()`, `Get<bool>()`, `Get<FbxDouble>()`, `Get<FbxDouble3>()`
and `GetSrcObject<FbxFileTexture>()`. -/
structure FbxPropertyData where
  IsValid : Bool
  GetPropertyDataType : FbxDataType
  GetBool : Bool
  GetDouble : FbxDouble
  GetDouble3 : FbxDouble3
  GetSrcObject : Option FbxFileTexture

/-- A property of the material, with its hierarchical children
(`FindHierarchical`). -/
structure FbxProperty extends FbxPropertyData where
  FindHierarchical : String → FbxPropertyData

structure FbxSurfaceMaterial where
  GetName : FbxString
  ShadingModel : FbxString
  FindProperty : String → FbxProperty

/-- The names of the standard surface properties (`FbxSurfaceMaterial::sDiffuse`
and so on). -/
def sDiffuse : String := "DiffuseColor"

def sDiffuseFactor : String := "DiffuseFactor"

def sEmissive : String := "EmissiveColor"

def sEmissiveFactor : String := "EmissiveFactor"

def sNormalMap : String := "NormalMap"

def sSpecular : String := "SpecularColor"

/-- The caller's `std::map<const FbxTexture*, FbxString>`. -/
abbrev TextureLocations := List (FbxFileTexture × FbxString)

/-- The test `textureLocations.find(tex) == textureLocations.end()`. -/
def findIsEnd (textureLocations : TextureLocations) (tex : FbxFileTexture) : Bool :=
  (textureLocations.lookup tex).isNone

/-- A texture is a key of the map. -/
def isKey (textureLocations : TextureLocations) (tex : FbxFileTexture) : Prop :=
  ∃ loc, (tex, loc) ∈ textureLocations

/-! ## The output record -/

structure FbxRoughMetMaterialInfo where
  name : FbxString
  shadingModel : FbxString
  texColor : Option FbxFileTexture
  colBase : FbxVector4
  texNormal : Option FbxFileTexture
  texMetallic : Option FbxFileTexture
  metallic : FbxDouble
  texRoughness : Option FbxFileTexture
  roughness : FbxDouble
  texEmissive : Option FbxFileTexture
  colEmissive : FbxVector4
  emissiveIntensity : FbxDouble
  texAmbientOcclusion : Option FbxFileTexture
deriving DecidableEq, Repr

/-- Modelled from the spec: the constant `FBX_SHADER_METROUGH` of
`FbxRoughMetMaterialInfo.hpp`, the shading model tag, "fixed to metal-rough for
this resolver". -/
def FBX_SHADER_METROUGH : FbxString := "metal-rough"

/-- The constructor `FbxRoughMetMaterialInfo(name, shadingModel)` is declared in
`FbxRoughMetMaterialInfo.hpp`, which is not among the sources: `From` takes it as a
parameter, and every statement holds for whatever record it builds. -/
abbrev Constructor := FbxString → FbxString → FbxRoughMetMaterialInfo

/-- The constructor stores its two arguments as the name and the shading model tag
of the record. -/
def storesIdentity (newInfo : Constructor) : Prop :=
  ∀ name shadingModel,
    (newInfo name shadingModel).name = name ∧
    (newInfo name shadingModel).shadingModel = shadingModel

/-- A constructor for the examples: it stores its arguments and fills every other
field with a value `From` never writes (texture 99, colour (5,5,5,5), scalars 7,
8 and 9), so that a field that comes back changed was assigned by `From`. -/
def sentinelInfo : Constructor := fun name shadingModel =>
  { name := name
    shadingModel := shadingModel
    texColor := some 99
    colBase := ⟨5, 5, 5, 5⟩
    texNormal := some 99
    texMetallic := some 99
    metallic := 7
    texRoughness := some 99
    roughness := 8
    texEmissive := some 99
    colEmissive := ⟨5, 5, 5, 5⟩
    emissiveIntensity := 9
    texAmbientOcclusion := some 99 }

/-! ## The messages -/

/-- The note of `getTex` (lines 32-35). -/
def noteMsg (propName : String) (matName : FbxString) : String :=
  "Note: Property '" ++ propName ++ "' of material '" ++ matName ++
    "' exists, but is flagged as 'do not use'.\n"

/-- The warning of `handleBasicProperty` (lines 119-124); the first argument of
the format is the literal "asdf". -/
def conflictMsg (colName facName : String) : String :=
  "Warning: Mat [" ++ "asdf" ++ "]: Can't handle both " ++ colName ++ " and " ++ facName ++
    " textures; discarding " ++ facName ++ ".\n"

/-- The warning of lines 163-166. -/
def shadingModelMsg (matName shadingModel : FbxString) : String :=
  "Warning: Material " ++ matName ++ " has surprising shading model: " ++ shadingModel ++ "\n"

/-- The text of line 183. -/
def helloMsg : String := "HELLO WORLD!"

/-! ## The resolver -/

/-- The filter repeated at every texture lookup:
`if (tex != nullptr && textureLocations.find(tex) == textureLocations.end()) tex = nullptr`. -/
def dropUnknown (textureLocations : TextureLocations) (tex : Option FbxFileTexture) :
    Option FbxFileTexture :=
  match tex with
  | some t => if findIsEnd textureLocations t then none else some t
  | none => none

/-- The lambda `getTex` (lines 19-38): the texture and what it prints. -/
def getTex (verboseOutput : Bool) (fbxMaterial : FbxSurfaceMaterial)
    (textureLocations : TextureLocations) (mayaProp : FbxProperty) (propName : String) :
    Option FbxFileTexture × List String :=
  let useProp := mayaProp.FindHierarchical ("use_" ++ propName ++ "_map")
  if useProp.IsValid && useProp.GetBool then
    let texProp := mayaProp.FindHierarchical ("TEX_" ++ propName ++ "_map")
    if texProp.IsValid then
      (dropUnknown textureLocations texProp.GetSrcObject, [])
    else
      (none, [])
  else if verboseOutput && useProp.IsValid then
    (none, [noteMsg propName fbxMaterial.GetName])
  else
    (none, [])

/-- The lambda `getVec` (lines 40-43). -/
def getVec (mayaProp : FbxProperty) (propName : String) : FbxDouble3 :=
  let vecProp := mayaProp.FindHierarchical propName
  if vecProp.IsValid then vecProp.GetDouble3 else ⟨1, 1, 1⟩

/-- The lambda `getVal` (lines 45-48). -/
def getVal (mayaProp : FbxProperty) (propName : String) : FbxDouble :=
  let vecProp := mayaProp.FindHierarchical propName
  if vecProp.IsValid then vecProp.GetDouble else 0

/-- The lambda `getSurfaceScalar` (lines 53-65). -/
def getSurfaceScalar (fbxMaterial : FbxSurfaceMaterial) (textureLocations : TextureLocations)
    (propName : String) : FbxDouble × Option FbxFileTexture :=
  let prop := fbxMaterial.FindProperty propName
  let tex := dropUnknown textureLocations prop.GetSrcObject
  let val := if tex.isNone && prop.IsValid then prop.GetDouble else 0
  (val, tex)

/-- The lambda `getSurfaceVector` (lines 67-79). -/
def getSurfaceVector (fbxMaterial : FbxSurfaceMaterial) (textureLocations : TextureLocations)
    (propName : String) : FbxDouble3 × Option FbxFileTexture :=
  let prop := fbxMaterial.FindProperty propName
  let tex := dropUnknown textureLocations prop.GetSrcObject
  let val := if tex.isNone && prop.IsValid then prop.GetDouble3 else ⟨1, 1, 1⟩
  (val, tex)

/-- The lambda `getSurfaceValues` (lines 81-108). -/
def getSurfaceValues (fbxMaterial : FbxSurfaceMaterial) (textureLocations : TextureLocations)
    (colName facName : String) : FbxVector4 × Option FbxFileTexture × Option FbxFileTexture :=
  let colProp := fbxMaterial.FindProperty colName
  let facProp := fbxMaterial.FindProperty facName
  let colTex := dropUnknown textureLocations colProp.GetSrcObject
  let colorVal : FbxDouble3 :=
    if colTex.isNone && colProp.IsValid then colProp.GetDouble3 else ⟨1, 1, 1⟩
  let facTex := dropUnknown textureLocations facProp.GetSrcObject
  let factorVal : FbxDouble :=
    if facTex.isNone && facProp.IsValid then facProp.GetDouble else 1
  let val : FbxVector4 :=
    ⟨colorVal.x * factorVal, colorVal.y * factorVal, colorVal.z * factorVal, factorVal⟩
  (val, colTex, facTex)

/-- The lambda `handleBasicProperty` (lines 111-129): the vector, the texture and
what it prints. -/
def handleBasicProperty (fbxMaterial : FbxSurfaceMaterial)
    (textureLocations : TextureLocations) (colName facName : String) :
    (FbxVector4 × Option FbxFileTexture) × List String :=
  let values := getSurfaceValues fbxMaterial textureLocations colName facName
  let vec := values.1
  let colTex := values.2.1
  let facTex := values.2.2
  if colTex.isSome then
    ((vec, colTex), if facTex.isSome then [conflictMsg colName facName] else [])
  else
    ((vec, facTex), [])

/-- The legacy branch of `From` (lines 50-161), on the fresh record `res`. -/
def FromLegacy (fbxMaterial : FbxSurfaceMaterial) (textureLocations : TextureLocations)
    (res : FbxRoughMetMaterialInfo) : FbxRoughMetMaterialInfo × List String :=
  let base := handleBasicProperty fbxMaterial textureLocations sDiffuse sDiffuseFactor
  let emissive := handleBasicProperty fbxMaterial textureLocations sEmissive sEmissiveFactor
  let texNormal := (getSurfaceVector fbxMaterial textureLocations sNormalMap).2
  let texMetallic := (getSurfaceVector fbxMaterial textureLocations sSpecular).2
  ({ res with
      colBase := base.1.1
      texColor := base.1.2
      colEmissive := emissive.1.1
      texEmissive := emissive.1.2
      texNormal := texNormal
      texMetallic := texMetallic
      texRoughness := texMetallic
      texAmbientOcclusion := texMetallic },
   base.2 ++ emissive.2)

/-- The structured branch of `From` (lines 162-184), on the fresh record `res`. -/
def FromStructured (verboseOutput : Bool) (fbxMaterial : FbxSurfaceMaterial)
    (textureLocations : TextureLocations) (mayaProp : FbxProperty)
    (res : FbxRoughMetMaterialInfo) : FbxRoughMetMaterialInfo × List String :=
  let tex := getTex verboseOutput fbxMaterial textureLocations mayaProp
  let warn : List String :=
    if fbxMaterial.ShadingModel.isEmpty then []
    else [shadingModelMsg fbxMaterial.GetName fbxMaterial.ShadingModel]
  let normal := tex "normal"
  let color := tex "color"
  let ao := tex "ao"
  let emissive := tex "emissive"
  let metallic := tex "metallic"
  let roughness := tex "roughness"
  let test := tex "specular"
  ({ res with
      texNormal := normal.1
      texColor := color.1
      colBase := FbxVector4.ofDouble3 (getVec mayaProp "base_color")
      texAmbientOcclusion := ao.1
      texEmissive := emissive.1
      colEmissive := FbxVector4.ofDouble3 (getVec mayaProp "emissive")
      emissiveIntensity := getVal mayaProp "emissive_intensity"
      texMetallic := metallic.1
      metallic := getVal mayaProp "metallic"
      texRoughness := roughness.1
      roughness := getVal mayaProp "roughness" },
   warn ++ normal.2 ++ color.2 ++ ao.2 ++ emissive.2 ++ metallic.2 ++ roughness.2 ++ test.2
     ++ [helloMsg])

/-- The function `FbxRoughMetMaterialInfo::From` (lines 12-185): the record it
returns and the messages it prints. `newInfo` is the constructor called at lines
15-16 and `verboseOutput` is the global setting read by `getTex`. -/
def From (newInfo : Constructor) (verboseOutput : Bool) (fbxMaterial : FbxSurfaceMaterial)
    (textureLocations : TextureLocations) : FbxRoughMetMaterialInfo × List String :=
  let res := newInfo fbxMaterial.GetName FBX_SHADER_METROUGH
  let mayaProp := fbxMaterial.FindProperty "Maya"
  if mayaProp.GetPropertyDataType ≠ FbxDataType.FbxCompoundDT then
    FromLegacy fbxMaterial textureLocations res
  else
    FromStructured verboseOutput fbxMaterial textureLocations mayaProp res

/-! ## Vocabulary of the statements -/

/-- A texture slot is empty or holds a key of the map. -/
def slotKnown (textureLocations : TextureLocations) (slot : Option FbxFileTexture) : Prop :=
  ∀ t, slot = some t → isKey textureLocations t

/-- The material follows the structured convention: the data type of its "Maya"
property is the compound marker (the test of line 50 fails). -/
def isStructured (fbxMaterial : FbxSurfaceMaterial) : Prop :=
  (fbxMaterial.FindProperty "Maya").GetPropertyDataType = FbxDataType.FbxCompoundDT

instance (fbxMaterial : FbxSurfaceMaterial) : Decidable (isStructured fbxMaterial) :=
  inferInstanceAs (Decidable (_ = FbxDataType.FbxCompoundDT))

/-- The six channels of the structured convention. -/
inductive Channel where
  | normal
  | color
  | ao
  | emissive
  | metallic
  | roughness
deriving DecidableEq, Repr

/-- The name `getTex` is called with for the channel (lines 169-178). -/
def Channel.propName : Channel → String
  | .normal => "normal"
  | .color => "color"
  | .ao => "ao"
  | .emissive => "emissive"
  | .metallic => "metallic"
  | .roughness => "roughness"

/-- The texture slot of the record that belongs to the channel. -/
def Channel.slot : Channel → FbxRoughMetMaterialInfo → Option FbxFileTexture
  | .normal, r => r.texNormal
  | .color, r => r.texColor
  | .ao, r => r.texAmbientOcclusion
  | .emissive, r => r.texEmissive
  | .metallic, r => r.texMetallic
  | .roughness, r => r.texRoughness

/-- The hierarchical flag "use_X_map" of the channel X. -/
def useFlag (fbxMaterial : FbxSurfaceMaterial) (X : Channel) : FbxPropertyData :=
  (fbxMaterial.FindProperty "Maya").FindHierarchical ("use_" ++ X.propName ++ "_map")

/-- The hierarchical property "TEX_X_map" of the channel X. -/
def texProperty (fbxMaterial : FbxSurfaceMaterial) (X : Channel) : FbxPropertyData :=
  (fbxMaterial.FindProperty "Maya").FindHierarchical ("TEX_" ++ X.propName ++ "_map")

/-- The hierarchical property of the given name under "Maya". -/
def mayaChild (fbxMaterial : FbxSurfaceMaterial) (name : String) : FbxPropertyData :=
  (fbxMaterial.FindProperty "Maya").FindHierarchical name

/-- The property is absent: it is invalid and drives no texture. -/
def isAbsent (prop : FbxPropertyData) : Prop :=
  prop.IsValid = false ∧ prop.GetSrcObject = none

instance (prop : FbxPropertyData) : Decidable (isAbsent prop) :=
  inferInstanceAs (Decidable (_ ∧ _))

/-- The material with the texture detached from the property `name`: its validity
and its constants are kept. -/
def detachFlat (fbxMaterial : FbxSurfaceMaterial) (name : String) : FbxSurfaceMaterial :=
  { fbxMaterial with
    FindProperty := fun n =>
      if n = name then { fbxMaterial.FindProperty n with GetSrcObject := none }
      else fbxMaterial.FindProperty n }

/-- The material with the texture detached from the hierarchical property `name`
under "Maya": its validity and its constants are kept. -/
def detachNested (fbxMaterial : FbxSurfaceMaterial) (name : String) : FbxSurfaceMaterial :=
  { fbxMaterial with
    FindProperty := fun n =>
      if n = "Maya" then
        { fbxMaterial.FindProperty n with
          FindHierarchical := fun c =>
            if c = name then
              { (fbxMaterial.FindProperty n).FindHierarchical c with GetSrcObject := none }
            else (fbxMaterial.FindProperty n).FindHierarchical c }
      else fbxMaterial.FindProperty n }

/-- The two maps have the same keys. -/
def sameKeys (textureLocations1 textureLocations2 : TextureLocations) : Prop :=
  ∀ t, isKey textureLocations1 t ↔ isKey textureLocations2 t

/-- The material with another declared shading-model name. -/
def withShadingModel (fbxMaterial : FbxSurfaceMaterial) (shadingModel : FbxString) :
    FbxSurfaceMaterial :=
  { fbxMaterial with ShadingModel := shadingModel }

/-- The material with other constants on the flat property `name`: its validity,
its data type, its texture and its children are kept. -/
def withConstants (fbxMaterial : FbxSurfaceMaterial) (name : String) (b : Bool)
    (d : FbxDouble) (v : FbxDouble3) : FbxSurfaceMaterial :=
  { fbxMaterial with
    FindProperty := fun n =>
      if n = name then
        { fbxMaterial.FindProperty n with GetBool := b, GetDouble := d, GetDouble3 := v }
      else fbxMaterial.FindProperty n }

/-- The five constants of the record. -/
def constantsOf (r : FbxRoughMetMaterialInfo) :
    FbxVector4 × FbxVector4 × FbxDouble × FbxDouble × FbxDouble :=
  (r.colBase, r.colEmissive, r.emissiveIntensity, r.metallic, r.roughness)

/-- The names of the five constant properties of the structured convention. -/
def constantNames : List String :=
  ["base_color", "emissive", "emissive_intensity", "metallic", "roughness"]

/-- The text `part` occurs in the message `msg`. -/
def containsText (msg part : String) : Prop :=
  part.data <:+: msg.data

instance (msg part : String) : Decidable (containsText msg part) :=
  inferInstanceAs (Decidable (part.data <:+: msg.data))

/-- The factor of a paired channel in the spec's words: 1 when the factor
sub-property is driven by a key of the map; else its scalar value, default 1. -/
def resolvedFactor (fbxMaterial : FbxSurfaceMaterial) (textureLocations : TextureLocations)
    (facName : String) : FbxDouble :=
  if (dropUnknown textureLocations (fbxMaterial.FindProperty facName).GetSrcObject).isSome then 1
  else if (fbxMaterial.FindProperty facName).IsValid
    then (fbxMaterial.FindProperty facName).GetDouble else 1

/-- The colour of a paired channel in the spec's words: (1,1,1) when the colour
sub-property is driven by a key of the map; else its vector3 value, default
(1,1,1). -/
def resolvedColor (fbxMaterial : FbxSurfaceMaterial) (textureLocations : TextureLocations)
    (colName : String) : FbxDouble3 :=
  if (dropUnknown textureLocations (fbxMaterial.FindProperty colName).GetSrcObject).isSome
    then ⟨1, 1, 1⟩
  else if (fbxMaterial.FindProperty colName).IsValid
    then (fbxMaterial.FindProperty colName).GetDouble3 else ⟨1, 1, 1⟩

/-- The two authoring conventions of the spec (§4.1). -/
inductive Convention where
  | STRUCTURED
  | LEGACY
deriving DecidableEq, Repr

/-- The convention detector in the spec's words (§4.1): "STRUCTURED if the
vendor-specific block's declared data type equals a specific compound marker type;
else LEGACY". -/
def detectConvention (fbxMaterial : FbxSurfaceMaterial) : Convention :=
  if (fbxMaterial.FindProperty "Maya").GetPropertyDataType = FbxDataType.FbxCompoundDT
    then Convention.STRUCTURED else Convention.LEGACY

/-- The contract of the SDK for a handle that designates no property: an invalid
"Maya" property reports the undefined data type. -/
def invalidIsUntyped (fbxMaterial : FbxSurfaceMaterial) : Prop :=
  (fbxMaterial.FindProperty "Maya").IsValid = false →
    (fbxMaterial.FindProperty "Maya").GetPropertyDataType = FbxDataType.FbxUndefinedDT

/-- A texture reference in the spec's words (§3): kept if it is a member of the
known-textures set, otherwise treated as if it did not exist. -/
def knownTexture (textureLocations : TextureLocations) (tex : Option FbxFileTexture) :
    Option FbxFileTexture :=
  match tex with
  | some t => if t ∈ textureLocations.map Prod.fst then some t else none
  | none => none

/-- The texture of a channel under the structured convention in the spec's words
(§4.2): if the flag "use_X_map" is true, the paired texture "TEX_X_map" if found
and known; if the flag is false or absent, none. -/
def structuredTexture (fbxMaterial : FbxSurfaceMaterial) (textureLocations : TextureLocations)
    (X : Channel) : Option FbxFileTexture :=
  if (useFlag fbxMaterial X).IsValid = true ∧ (useFlag fbxMaterial X).GetBool = true then
    if (texProperty fbxMaterial X).IsValid = true
      then knownTexture textureLocations (texProperty fbxMaterial X).GetSrcObject
      else none
  else none

/-- A vector3 constant under the structured convention in the spec's words (§4.2):
the value of the named property if valid, else (1,1,1). -/
def structuredVector (fbxMaterial : FbxSurfaceMaterial) (name : String) : FbxDouble3 :=
  if (mayaChild fbxMaterial name).IsValid = true
    then (mayaChild fbxMaterial name).GetDouble3 else ⟨1, 1, 1⟩

/-- A scalar constant under the structured convention in the spec's words (§4.2):
the value of the named property if valid, else 0. -/
def structuredScalar (fbxMaterial : FbxSurfaceMaterial) (name : String) : FbxDouble :=
  if (mayaChild fbxMaterial name).IsValid = true
    then (mayaChild fbxMaterial name).GetDouble else 0

/-- The record is the structured resolution of the material (§4.2): each of the
six channels has the texture its flag and its paired property give, and the five
constants are those of their named properties. -/
def isStructuredResolution (fbxMaterial : FbxSurfaceMaterial)
    (textureLocations : TextureLocations) (r : FbxRoughMetMaterialInfo) : Prop :=
  (∀ X : Channel, X.slot r = structuredTexture fbxMaterial textureLocations X) ∧
  r.colBase.xyz = structuredVector fbxMaterial "base_color" ∧
  r.colEmissive.xyz = structuredVector fbxMaterial "emissive" ∧
  r.emissiveIntensity = structuredScalar fbxMaterial "emissive_intensity" ∧
  r.metallic = structuredScalar fbxMaterial "metallic" ∧
  r.roughness = structuredScalar fbxMaterial "roughness"

/-- The texture of a paired channel under the legacy convention in the spec's
words (§4.3, steps 1, 2, 4 and 5): the known colour texture if there is one, else
the known factor texture, possibly neither. -/
def legacyTexture (fbxMaterial : FbxSurfaceMaterial) (textureLocations : TextureLocations)
    (colName facName : String) : Option FbxFileTexture :=
  match knownTexture textureLocations (fbxMaterial.FindProperty colName).GetSrcObject with
  | some t => some t
  | none => knownTexture textureLocations (fbxMaterial.FindProperty facName).GetSrcObject

/-- The factor of a paired channel under the legacy convention in the spec's words
(§4.3, step 2): 1 if the factor sub-property carries a known texture; else its
scalar value, default 1. -/
def legacyFactor (fbxMaterial : FbxSurfaceMaterial) (textureLocations : TextureLocations)
    (facName : String) : FbxDouble :=
  match knownTexture textureLocations (fbxMaterial.FindProperty facName).GetSrcObject with
  | some _ => 1
  | none =>
    if (fbxMaterial.FindProperty facName).IsValid = true
      then (fbxMaterial.FindProperty facName).GetDouble else 1

/-- The record is the legacy resolution of the material on the fresh record
`fresh` (§4.3): the base-colour and emissive textures and factors are those of the
diffuse and emissive pairs, the normal texture is the known normal-map texture,
the metallic, roughness and occlusion textures are the known specular texture, and
the three scalars are left as constructed. The first three components of the two
colours are products of doubles and are left out. -/
def isLegacyResolution (fbxMaterial : FbxSurfaceMaterial)
    (textureLocations : TextureLocations) (fresh r : FbxRoughMetMaterialInfo) : Prop :=
  r.texColor = legacyTexture fbxMaterial textureLocations sDiffuse sDiffuseFactor ∧
  r.colBase.w = legacyFactor fbxMaterial textureLocations sDiffuseFactor ∧
  r.texEmissive = legacyTexture fbxMaterial textureLocations sEmissive sEmissiveFactor ∧
  r.colEmissive.w = legacyFactor fbxMaterial textureLocations sEmissiveFactor ∧
  r.texNormal =
    knownTexture textureLocations (fbxMaterial.FindProperty sNormalMap).GetSrcObject ∧
  r.texMetallic =
    knownTexture textureLocations (fbxMaterial.FindProperty sSpecular).GetSrcObject ∧
  r.texRoughness =
    knownTexture textureLocations (fbxMaterial.FindProperty sSpecular).GetSrcObject ∧
  r.texAmbientOcclusion =
    knownTexture textureLocations (fbxMaterial.FindProperty sSpecular).GetSrcObject ∧
  r.metallic = fresh.metallic ∧ r.roughness = fresh.roughness ∧
  r.emissiveIntensity = fresh.emissiveIntensity

/-- A material for the examples: every property is invalid and drives no texture,
except those listed. -/
def sampleMaterial (name : FbxString) (mayaType : FbxDataType)
    (flat : List (String × FbxPropertyData)) (nested : List (String × FbxPropertyData)) :
    FbxSurfaceMaterial :=
  let absent : FbxPropertyData :=
    ⟨false, FbxDataType.FbxUndefinedDT, false, 0, ⟨0, 0, 0⟩, none⟩
  { GetName := name
    ShadingModel := ""
    FindProperty := fun n =>
      if n = "Maya" then
        { IsValid := true, GetPropertyDataType := mayaType, GetBool := false, GetDouble := 0,
          GetDouble3 := ⟨0, 0, 0⟩, GetSrcObject := none,
          FindHierarchical := fun c => (nested.lookup c).getD absent }
      else
        { toFbxPropertyData := (flat.lookup n).getD absent
          FindHierarchical := fun _ => absent } }

/-- A valid property holding constants only. -/
def constantProperty (b : Bool) (d : FbxDouble) (v : FbxDouble3) : FbxPropertyData :=
  ⟨true, FbxDataType.FbxDouble3DT, b, d, v, none⟩

/-- A valid property driven by a texture. -/
def texturedProperty (t : FbxFileTexture) : FbxPropertyData :=
  ⟨true, FbxDataType.FbxDouble3DT, false, 0, ⟨0, 0, 0⟩, some t⟩

/-! ## Sample materials -/

/-- A legacy material with a texture conflict: both pairs are driven by the
textures 1 (colour) and 2 (factor). -/
def conflictMaterial : FbxSurfaceMaterial :=
  sampleMaterial "lambert1" FbxDataType.FbxUndefinedDT
    [(sDiffuse, texturedProperty 1), (sDiffuseFactor, texturedProperty 2),
     (sEmissive, texturedProperty 1), (sEmissiveFactor, texturedProperty 2)] []

/-- A legacy material with a specular texture: the specular property is driven by
texture 7. -/
def specularMaterial : FbxSurfaceMaterial :=
  sampleMaterial "phong1" FbxDataType.FbxUndefinedDT [(sSpecular, texturedProperty 7)] []

/-- A structured material: the colour channel has a texture
and a constant; the metallic channel has a texture and a flag that is false. -/
def mayaMaterial : FbxSurfaceMaterial :=
  sampleMaterial "stingray1" FbxDataType.FbxCompoundDT []
    [("use_color_map", constantProperty true 0 ⟨0, 0, 0⟩),
     ("TEX_color_map", texturedProperty 3),
     ("base_color", constantProperty false 0 ⟨1 / 4, 1 / 2, 3 / 4⟩),
     ("use_metallic_map", constantProperty false 0 ⟨0, 0, 0⟩),
     ("TEX_metallic_map", texturedProperty 4),
     ("metallic", constantProperty false (1 / 2) ⟨0, 0, 0⟩),
     ("TEX_ao_map", texturedProperty 3)]

/-- A structured material with a texture that is not exported: the colour channel
is enabled, its texture is 3, "base_color" is (1/4, 1/2, 3/4) and "metallic" is
1/2. -/
def unexportedMaterial : FbxSurfaceMaterial :=
  sampleMaterial "stingray2" FbxDataType.FbxCompoundDT []
    [("use_color_map", constantProperty true 0 ⟨0, 0, 0⟩),
     ("TEX_color_map", texturedProperty 3),
     ("base_color", constantProperty false 0 ⟨1 / 4, 1 / 2, 3 / 4⟩),
     ("metallic", constantProperty false (1 / 2) ⟨0, 0, 0⟩)]

/-- A material with no property at all: every handle `FindProperty` returns,
the one for "Maya" included, is invalid, untyped and drives no texture. -/
def emptyMaterial : FbxSurfaceMaterial :=
  { GetName := "empty"
    ShadingModel := ""
    FindProperty := fun _ =>
      { toFbxPropertyData := ⟨false, FbxDataType.FbxUndefinedDT, false, 0, ⟨0, 0, 0⟩, none⟩
        FindHierarchical := fun _ =>
          ⟨false, FbxDataType.FbxUndefinedDT, false, 0, ⟨0, 0, 0⟩, none⟩ } }

/-- A structured material with no flag, no texture and no constant. -/
def bareMaterial : FbxSurfaceMaterial :=
  sampleMaterial "stingray3" FbxDataType.FbxCompoundDT [] []

/-- A structured material whose only property is the flag "use_specular_map",
valid and false. -/
def specularFlagMaterial : FbxSurfaceMaterial :=
  sampleMaterial "stingray3" FbxDataType.FbxCompoundDT []
    [("use_specular_map", constantProperty false 0 ⟨0, 0, 0⟩)]

/-- A legacy material: the diffuse colour is driven by texture 1 and holds the
constant (1/4, 1/2, 3/4), the diffuse factor is 3; the emissive colour is
(1/4, 1/2, 3/4) and the emissive factor is driven by texture 2 and holds 5. -/
def mixedMaterial : FbxSurfaceMaterial :=
  sampleMaterial "blinn1" FbxDataType.FbxUndefinedDT
    [(sDiffuse, ⟨true, FbxDataType.FbxDouble3DT, false, 0, ⟨1 / 4, 1 / 2, 3 / 4⟩, some 1⟩),
     (sDiffuseFactor, constantProperty false 3 ⟨0, 0, 0⟩),
     (sEmissive, constantProperty false 0 ⟨1 / 4, 1 / 2, 3 / 4⟩),
     (sEmissiveFactor, ⟨true, FbxDataType.FbxDoubleDT, false, 5, ⟨0, 0, 0⟩, some 2⟩),
     (sNormalMap, ⟨true, FbxDataType.FbxDouble3DT, false, 0, ⟨1 / 2, 1 / 2, 1⟩, some 3⟩)] []

/-- A material with no "Maya" property: the handle `FindProperty("Maya")` returns
is invalid and untyped. Its diffuse colour is driven by texture 1 and its specular
property by texture 7. -/
def noMayaMaterial : FbxSurfaceMaterial :=
  { GetName := "phong2"
    ShadingModel := ""
    FindProperty := fun n =>
      { toFbxPropertyData :=
          ([(sDiffuse, texturedProperty 1), (sSpecular, texturedProperty 7)].lookup n).getD
            ⟨false, FbxDataType.FbxUndefinedDT, false, 0, ⟨0, 0, 0⟩, none⟩
        FindHierarchical := fun _ =>
          ⟨false, FbxDataType.FbxUndefinedDT, false, 0, ⟨0, 0, 0⟩, none⟩ } }

/-! ## Lemmas on the helpers -/

theorem findIsEnd_eq_false_iff (textureLocations : TextureLocations) (t : FbxFileTexture) :
    findIsEnd textureLocations t = false ↔ isKey textureLocations t := by
  unfold findIsEnd isKey
  induction textureLocations with
  | nil => simp
  | cons kv rest ih =>
    obtain ⟨k, v⟩ := kv
    by_cases hk : t = k
    · subst hk
      simp [List.lookup]
    · have hk2 : (t == k) = false := by simpa using hk
      simp only [List.lookup, hk2, List.mem_cons, Prod.mk.injEq, hk, false_and, false_or]
      exact ih

theorem dropUnknown_some_iff (textureLocations : TextureLocations)
    (tex : Option FbxFileTexture) (t : FbxFileTexture) :
    dropUnknown textureLocations tex = some t ↔ tex = some t ∧ isKey textureLocations t := by
  cases tex with
  | none => simp [dropUnknown]
  | some u =>
    rw [← findIsEnd_eq_false_iff]
    by_cases hu : findIsEnd textureLocations u = true
    · constructor
      · intro h
        simp [dropUnknown, hu] at h
      · intro h
        have h1 : u = t := by simpa using h.1
        rw [h1, h.2] at hu
        exact absurd hu (by decide)
    · have hu2 : findIsEnd textureLocations u = false := by simpa using hu
      constructor
      · intro h
        have h1 : u = t := by simpa [dropUnknown, hu2] using h
        exact ⟨by rw [h1], by rw [← h1]; exact hu2⟩
      · intro h
        have h1 : u = t := by simpa using h.1
        simp [dropUnknown, h1, h.2]

theorem dropUnknown_known (textureLocations : TextureLocations) (t : FbxFileTexture)
    (h : isKey textureLocations t) : dropUnknown textureLocations (some t) = some t :=
  (dropUnknown_some_iff textureLocations (some t) t).2 ⟨rfl, h⟩

theorem dropUnknown_unknown (textureLocations : TextureLocations) (t : FbxFileTexture)
    (h : ¬ isKey textureLocations t) : dropUnknown textureLocations (some t) = none := by
  cases hd : dropUnknown textureLocations (some t) with
  | none => rfl
  | some u =>
    have h2 := (dropUnknown_some_iff textureLocations (some t) u).1 hd
    have h3 : t = u := by simpa using h2.1
    subst h3
    exact absurd h2.2 h

theorem slotKnown_dropUnknown (textureLocations : TextureLocations)
    (tex : Option FbxFileTexture) : slotKnown textureLocations (dropUnknown textureLocations tex) :=
  fun t h => ((dropUnknown_some_iff textureLocations tex t).1 h).2

theorem slotKnown_none (textureLocations : TextureLocations) : slotKnown textureLocations none :=
  fun t h => by simp at h

theorem slotKnown_getTex (verboseOutput : Bool) (fbxMaterial : FbxSurfaceMaterial)
    (textureLocations : TextureLocations) (mayaProp : FbxProperty) (propName : String) :
    slotKnown textureLocations
      (getTex verboseOutput fbxMaterial textureLocations mayaProp propName).1 := by
  unfold getTex
  dsimp only
  split
  · split
    · exact slotKnown_dropUnknown _ _
    · exact slotKnown_none _
  · split
    · exact slotKnown_none _
    · exact slotKnown_none _

theorem slotKnown_handleBasicProperty (fbxMaterial : FbxSurfaceMaterial)
    (textureLocations : TextureLocations) (colName facName : String) :
    slotKnown textureLocations
      (handleBasicProperty fbxMaterial textureLocations colName facName).1.2 := by
  unfold handleBasicProperty getSurfaceValues
  dsimp only
  split
  · exact slotKnown_dropUnknown _ _
  · exact slotKnown_dropUnknown _ _

theorem slotKnown_getSurfaceVector (fbxMaterial : FbxSurfaceMaterial)
    (textureLocations : TextureLocations) (propName : String) :
    slotKnown textureLocations (getSurfaceVector fbxMaterial textureLocations propName).2 :=
  slotKnown_dropUnknown _ _

/-- Under the legacy convention `From` is the legacy branch on the fresh record. -/
theorem From_legacy (newInfo : Constructor) (verboseOutput : Bool)
    (fbxMaterial : FbxSurfaceMaterial)
    (textureLocations : TextureLocations) (h : ¬ isStructured fbxMaterial) :
    From newInfo verboseOutput fbxMaterial textureLocations =
      FromLegacy fbxMaterial textureLocations
        (newInfo fbxMaterial.GetName FBX_SHADER_METROUGH) := by
  unfold isStructured at h
  simp [From, h]

/-- Under the structured convention `From` is the structured branch on the fresh
record. -/
theorem From_structured (newInfo : Constructor) (verboseOutput : Bool)
    (fbxMaterial : FbxSurfaceMaterial)
    (textureLocations : TextureLocations) (h : isStructured fbxMaterial) :
    From newInfo verboseOutput fbxMaterial textureLocations =
      FromStructured verboseOutput fbxMaterial textureLocations
        (fbxMaterial.FindProperty "Maya")
        (newInfo fbxMaterial.GetName FBX_SHADER_METROUGH) := by
  unfold isStructured at h
  simp [From, h]

/-- The texture and the message of `handleBasicProperty` when both sub-properties
are driven by known textures. -/
theorem handleBasicProperty_conflict (fbxMaterial : FbxSurfaceMaterial)
    (textureLocations : TextureLocations) (colName facName : String) (T1 T2 : FbxFileTexture)
    (hcol : (fbxMaterial.FindProperty colName).GetSrcObject = some T1)
    (hfac : (fbxMaterial.FindProperty facName).GetSrcObject = some T2)
    (h1 : isKey textureLocations T1) (h2 : isKey textureLocations T2) :
    (handleBasicProperty fbxMaterial textureLocations colName facName).1.2 = some T1 ∧
    (handleBasicProperty fbxMaterial textureLocations colName facName).2 =
      [conflictMsg colName facName] := by
  simp [handleBasicProperty, getSurfaceValues, hcol, hfac, dropUnknown_known _ _ h1,
    dropUnknown_known _ _ h2]

/-- In the structured branch the slot of a channel is what `getTex` returns for
the channel's name. -/
theorem FromStructured_slot (verboseOutput : Bool) (fbxMaterial : FbxSurfaceMaterial)
    (textureLocations : TextureLocations) (mayaProp : FbxProperty)
    (res : FbxRoughMetMaterialInfo) (X : Channel) :
    X.slot (FromStructured verboseOutput fbxMaterial textureLocations mayaProp res).1 =
      (getTex verboseOutput fbxMaterial textureLocations mayaProp X.propName).1 := by
  cases X <;> rfl

/-- The slot of a channel under the structured convention. -/
theorem From_slot_structured (newInfo : Constructor) (verboseOutput : Bool)
    (fbxMaterial : FbxSurfaceMaterial)
    (textureLocations : TextureLocations) (X : Channel) (h : isStructured fbxMaterial) :
    X.slot (From newInfo verboseOutput fbxMaterial textureLocations).1 =
      (getTex verboseOutput fbxMaterial textureLocations (fbxMaterial.FindProperty "Maya")
        X.propName).1 := by
  rw [From_structured _ _ _ _ h, FromStructured_slot]

/-- What `getTex` prints: the note, exactly when the verbose setting is on and the
flag is valid and false. -/
theorem getTex_log (verboseOutput : Bool) (fbxMaterial : FbxSurfaceMaterial)
    (textureLocations : TextureLocations) (mayaProp : FbxProperty) (propName : String) :
    (getTex verboseOutput fbxMaterial textureLocations mayaProp propName).2 =
      if verboseOutput = true ∧
          (mayaProp.FindHierarchical ("use_" ++ propName ++ "_map")).IsValid = true ∧
          (mayaProp.FindHierarchical ("use_" ++ propName ++ "_map")).GetBool = false
      then [noteMsg propName fbxMaterial.GetName] else [] := by
  unfold getTex
  dsimp only
  generalize (mayaProp.FindHierarchical ("use_" ++ propName ++ "_map")).IsValid = a
  generalize (mayaProp.FindHierarchical ("use_" ++ propName ++ "_map")).GetBool = b
  generalize (mayaProp.FindHierarchical ("TEX_" ++ propName ++ "_map")).IsValid = c
  cases verboseOutput <;> cases a <;> cases b <;> cases c <;> simp

theorem mem_getTex_log (verboseOutput : Bool) (fbxMaterial : FbxSurfaceMaterial)
    (textureLocations : TextureLocations) (mayaProp : FbxProperty) (propName msg : String) :
    msg ∈ (getTex verboseOutput fbxMaterial textureLocations mayaProp propName).2 ↔
      msg = noteMsg propName fbxMaterial.GetName ∧ verboseOutput = true ∧
        (mayaProp.FindHierarchical ("use_" ++ propName ++ "_map")).IsValid = true ∧
        (mayaProp.FindHierarchical ("use_" ++ propName ++ "_map")).GetBool = false := by
  rw [getTex_log]
  split
  · rename_i h
    simp [h]
  · rename_i h
    simp only [List.not_mem_nil, false_iff, not_and]
    intro _ h1 h2 h3
    exact h ⟨h1, h2, h3⟩

/-- For one material the note determines the property name. -/
theorem noteMsg_eq_iff (p q n : String) : noteMsg p n = noteMsg q n ↔ p = q := by
  constructor
  · intro h
    have h2 := congrArg String.data h
    simp only [noteMsg, String.data_append, List.append_assoc, List.append_cancel_left_eq,
      List.append_cancel_right_eq] at h2
    exact String.ext h2
  · intro h
    rw [h]

theorem noteMsg_ne_shadingModelMsg (p n m sm : String) : noteMsg p n ≠ shadingModelMsg m sm := by
  intro h
  have h2 := congrArg String.data h
  simp [noteMsg, shadingModelMsg, String.data_append] at h2

theorem noteMsg_ne_helloMsg (p n : String) : noteMsg p n ≠ helloMsg := by
  intro h
  have h2 := congrArg String.data h
  simp [noteMsg, helloMsg, String.data_append] at h2

/-- The note of a channel is printed by the structured branch exactly when the
verbose setting is on and the flag of the channel is valid and false. -/
theorem note_mem_FromStructured (verboseOutput : Bool) (fbxMaterial : FbxSurfaceMaterial)
    (textureLocations : TextureLocations) (res : FbxRoughMetMaterialInfo) (X : Channel) :
    noteMsg X.propName fbxMaterial.GetName ∈
        (FromStructured verboseOutput fbxMaterial textureLocations
          (fbxMaterial.FindProperty "Maya") res).2 ↔
      verboseOutput = true ∧ (useFlag fbxMaterial X).IsValid = true ∧
        (useFlag fbxMaterial X).GetBool = false := by
  unfold FromStructured useFlag
  simp only [List.mem_append, mem_getTex_log, noteMsg_eq_iff, List.mem_singleton,
    noteMsg_ne_helloMsg, or_false]
  have hw : noteMsg X.propName fbxMaterial.GetName ∉
      (if fbxMaterial.ShadingModel.isEmpty = true then ([] : List String)
        else [shadingModelMsg fbxMaterial.GetName fbxMaterial.ShadingModel]) := by
    split
    · simp
    · simp [noteMsg_ne_shadingModelMsg]
  simp only [hw, false_or]
  cases X <;> simp [Channel.propName]

/-- Detaching an unknown texture from a flat property leaves every filtered
texture lookup, and every other accessor, as it was. -/
theorem detachFlat_lookup (fbxMaterial : FbxSurfaceMaterial)
    (textureLocations : TextureLocations) (name : String) (t : FbxFileTexture)
    (htex : (fbxMaterial.FindProperty name).GetSrcObject = some t)
    (hunknown : ¬ isKey textureLocations t) (n : String) :
    dropUnknown textureLocations ((detachFlat fbxMaterial name).FindProperty n).GetSrcObject =
        dropUnknown textureLocations (fbxMaterial.FindProperty n).GetSrcObject ∧
    ((detachFlat fbxMaterial name).FindProperty n).IsValid =
        (fbxMaterial.FindProperty n).IsValid ∧
    ((detachFlat fbxMaterial name).FindProperty n).GetPropertyDataType =
        (fbxMaterial.FindProperty n).GetPropertyDataType ∧
    ((detachFlat fbxMaterial name).FindProperty n).GetDouble =
        (fbxMaterial.FindProperty n).GetDouble ∧
    ((detachFlat fbxMaterial name).FindProperty n).GetDouble3 =
        (fbxMaterial.FindProperty n).GetDouble3 ∧
    ((detachFlat fbxMaterial name).FindProperty n).FindHierarchical =
        (fbxMaterial.FindProperty n).FindHierarchical := by
  unfold detachFlat
  dsimp only
  by_cases hn : n = name
  · subst hn
    rw [if_pos rfl]
    refine ⟨?_, rfl, rfl, rfl, rfl, rfl⟩
    rw [htex, dropUnknown_unknown _ _ hunknown]
    rfl
  · rw [if_neg hn]
    exact ⟨rfl, rfl, rfl, rfl, rfl, rfl⟩

theorem From_detachFlat (newInfo : Constructor) (verboseOutput : Bool)
    (fbxMaterial : FbxSurfaceMaterial)
    (textureLocations : TextureLocations) (name : String) (t : FbxFileTexture)
    (htex : (fbxMaterial.FindProperty name).GetSrcObject = some t)
    (hunknown : ¬ isKey textureLocations t) :
    From newInfo verboseOutput (detachFlat fbxMaterial name) textureLocations =
      From newInfo verboseOutput fbxMaterial textureLocations := by
  have h := detachFlat_lookup fbxMaterial textureLocations name t htex hunknown
  have hname : (detachFlat fbxMaterial name).GetName = fbxMaterial.GetName := rfl
  have hshading : (detachFlat fbxMaterial name).ShadingModel = fbxMaterial.ShadingModel := rfl
  simp only [From, FromLegacy, FromStructured, handleBasicProperty, getSurfaceValues,
    getSurfaceVector, getTex, getVec, getVal, hname, hshading, (h _).1, (h _).2.1,
    (h _).2.2.1, (h _).2.2.2.1, (h _).2.2.2.2.1, (h _).2.2.2.2.2]

/-- Detaching an unknown texture from a hierarchical property under "Maya" leaves
every filtered texture lookup, and every other accessor, as it was. -/
theorem detachNested_lookup (fbxMaterial : FbxSurfaceMaterial)
    (textureLocations : TextureLocations) (name : String) (t : FbxFileTexture)
    (htex : (mayaChild fbxMaterial name).GetSrcObject = some t)
    (hunknown : ¬ isKey textureLocations t) :
    (∀ n, ((detachNested fbxMaterial name).FindProperty n).toFbxPropertyData =
        (fbxMaterial.FindProperty n).toFbxPropertyData) ∧
    (∀ c, dropUnknown textureLocations
          (((detachNested fbxMaterial name).FindProperty "Maya").FindHierarchical c).GetSrcObject =
        dropUnknown textureLocations
          ((fbxMaterial.FindProperty "Maya").FindHierarchical c).GetSrcObject) ∧
    (∀ c, (((detachNested fbxMaterial name).FindProperty "Maya").FindHierarchical c).IsValid =
        ((fbxMaterial.FindProperty "Maya").FindHierarchical c).IsValid) ∧
    (∀ c, (((detachNested fbxMaterial name).FindProperty "Maya").FindHierarchical c).GetBool =
        ((fbxMaterial.FindProperty "Maya").FindHierarchical c).GetBool) ∧
    (∀ c, (((detachNested fbxMaterial name).FindProperty "Maya").FindHierarchical c).GetDouble =
        ((fbxMaterial.FindProperty "Maya").FindHierarchical c).GetDouble) ∧
    (∀ c, (((detachNested fbxMaterial name).FindProperty "Maya").FindHierarchical c).GetDouble3 =
        ((fbxMaterial.FindProperty "Maya").FindHierarchical c).GetDouble3) := by
  unfold mayaChild at htex
  unfold detachNested
  dsimp only
  refine ⟨?_, ?_, ?_, ?_, ?_, ?_⟩
  · intro n
    by_cases hn : n = "Maya"
    · rw [if_pos hn]
    · rw [if_neg hn]
  all_goals
    intro c
    rw [if_pos rfl]
    dsimp only
    by_cases hc : c = name
    · subst hc
      first
        | (rw [if_pos rfl, htex, dropUnknown_unknown _ _ hunknown]; rfl)
        | rw [if_pos rfl]
    · rw [if_neg hc]

theorem From_detachNested (newInfo : Constructor) (verboseOutput : Bool)
    (fbxMaterial : FbxSurfaceMaterial)
    (textureLocations : TextureLocations) (name : String) (t : FbxFileTexture)
    (htex : (mayaChild fbxMaterial name).GetSrcObject = some t)
    (hunknown : ¬ isKey textureLocations t) :
    From newInfo verboseOutput (detachNested fbxMaterial name) textureLocations =
      From newInfo verboseOutput fbxMaterial textureLocations := by
  obtain ⟨h0, h1, h2, h3, h4, h5⟩ :=
    detachNested_lookup fbxMaterial textureLocations name t htex hunknown
  have hname : (detachNested fbxMaterial name).GetName = fbxMaterial.GetName := rfl
  have hshading : (detachNested fbxMaterial name).ShadingModel = fbxMaterial.ShadingModel := rfl
  simp only [From, FromLegacy, FromStructured, handleBasicProperty, getSurfaceValues,
    getSurfaceVector, getTex, getVec, getVal, hname, hshading, h0, h1, h2, h3, h4, h5]

/-- Two maps with the same keys filter every texture alike. -/
theorem dropUnknown_sameKeys (textureLocations1 textureLocations2 : TextureLocations)
    (h : sameKeys textureLocations1 textureLocations2) (tex : Option FbxFileTexture) :
    dropUnknown textureLocations1 tex = dropUnknown textureLocations2 tex := by
  cases tex with
  | none => rfl
  | some t =>
    by_cases hk : isKey textureLocations1 t
    · rw [dropUnknown_known _ _ hk, dropUnknown_known _ _ ((h t).1 hk)]
    · rw [dropUnknown_unknown _ _ hk, dropUnknown_unknown _ _ (fun h2 => hk ((h t).2 h2))]

/-- The vector of `handleBasicProperty` is the resolved colour times the resolved
factor, with the resolved factor as fourth component. -/
theorem handleBasicProperty_value (fbxMaterial : FbxSurfaceMaterial)
    (textureLocations : TextureLocations) (colName facName : String) :
    (handleBasicProperty fbxMaterial textureLocations colName facName).1.1 =
      ⟨(resolvedColor fbxMaterial textureLocations colName).x *
          resolvedFactor fbxMaterial textureLocations facName,
        (resolvedColor fbxMaterial textureLocations colName).y *
          resolvedFactor fbxMaterial textureLocations facName,
        (resolvedColor fbxMaterial textureLocations colName).z *
          resolvedFactor fbxMaterial textureLocations facName,
        resolvedFactor fbxMaterial textureLocations facName⟩ := by
  unfold handleBasicProperty getSurfaceValues resolvedColor resolvedFactor
  dsimp only
  cases dropUnknown textureLocations (fbxMaterial.FindProperty colName).GetSrcObject <;>
    cases dropUnknown textureLocations (fbxMaterial.FindProperty facName).GetSrcObject <;>
    cases (fbxMaterial.FindProperty colName).IsValid <;>
    cases (fbxMaterial.FindProperty facName).IsValid <;>
    simp

theorem resolvedColor_of_known (fbxMaterial : FbxSurfaceMaterial)
    (textureLocations : TextureLocations) (colName : String) (t : FbxFileTexture)
    (htex : (fbxMaterial.FindProperty colName).GetSrcObject = some t)
    (hknown : isKey textureLocations t) :
    resolvedColor fbxMaterial textureLocations colName = ⟨1, 1, 1⟩ := by
  simp [resolvedColor, htex, dropUnknown_known _ _ hknown]

theorem resolvedFactor_of_known (fbxMaterial : FbxSurfaceMaterial)
    (textureLocations : TextureLocations) (facName : String) (t : FbxFileTexture)
    (htex : (fbxMaterial.FindProperty facName).GetSrcObject = some t)
    (hknown : isKey textureLocations t) :
    resolvedFactor fbxMaterial textureLocations facName = 1 := by
  simp [resolvedFactor, htex, dropUnknown_known _ _ hknown]

/-- Other constants on the normal-map property leave what `From` returns and
prints as it was. -/
theorem From_withConstants_normalMap (newInfo : Constructor) (verboseOutput : Bool)
    (fbxMaterial : FbxSurfaceMaterial)
    (textureLocations : TextureLocations) (b : Bool) (d : FbxDouble) (v : FbxDouble3) :
    From newInfo verboseOutput (withConstants fbxMaterial sNormalMap b d v) textureLocations =
      From newInfo verboseOutput fbxMaterial textureLocations := by
  have hother : ∀ n, n ≠ sNormalMap →
      (withConstants fbxMaterial sNormalMap b d v).FindProperty n = fbxMaterial.FindProperty n := by
    intro n hn
    unfold withConstants
    exact if_neg hn
  have hnormal : ((withConstants fbxMaterial sNormalMap b d v).FindProperty sNormalMap).GetSrcObject
      = (fbxMaterial.FindProperty sNormalMap).GetSrcObject := by
    unfold withConstants
    dsimp only
    rw [if_pos rfl]
  have hname : (withConstants fbxMaterial sNormalMap b d v).GetName = fbxMaterial.GetName := rfl
  have hshading :
      (withConstants fbxMaterial sNormalMap b d v).ShadingModel = fbxMaterial.ShadingModel := rfl
  simp only [From, FromLegacy, FromStructured, handleBasicProperty, getSurfaceValues,
    getSurfaceVector, getTex, getVec, getVal, hname, hshading, hnormal,
    hother "Maya" (by decide), hother sDiffuse (by decide), hother sDiffuseFactor (by decide),
    hother sEmissive (by decide), hother sEmissiveFactor (by decide),
    hother sSpecular (by decide)]

/-- The filter of the source is the membership test of the spec. -/
theorem dropUnknown_eq_knownTexture (textureLocations : TextureLocations)
    (tex : Option FbxFileTexture) :
    dropUnknown textureLocations tex = knownTexture textureLocations tex := by
  cases tex with
  | none => rfl
  | some t =>
    have hmem : t ∈ textureLocations.map Prod.fst ↔ isKey textureLocations t := by
      simp [isKey]
    by_cases hk : isKey textureLocations t
    · rw [dropUnknown_known _ _ hk]
      simp [knownTexture, hmem.2 hk]
    · rw [dropUnknown_unknown _ _ hk]
      have hn : t ∉ textureLocations.map Prod.fst := fun h => hk (hmem.1 h)
      simp [knownTexture, hn]

/-- What `getTex` returns is the structured texture of the spec. -/
theorem getTex_eq_structuredTexture (verboseOutput : Bool) (fbxMaterial : FbxSurfaceMaterial)
    (textureLocations : TextureLocations) (X : Channel) :
    (getTex verboseOutput fbxMaterial textureLocations (fbxMaterial.FindProperty "Maya")
      X.propName).1 = structuredTexture fbxMaterial textureLocations X := by
  unfold getTex structuredTexture useFlag texProperty
  dsimp only
  rw [dropUnknown_eq_knownTexture]
  generalize ((fbxMaterial.FindProperty "Maya").FindHierarchical
    ("use_" ++ X.propName ++ "_map")).IsValid = a
  generalize ((fbxMaterial.FindProperty "Maya").FindHierarchical
    ("use_" ++ X.propName ++ "_map")).GetBool = b
  generalize ((fbxMaterial.FindProperty "Maya").FindHierarchical
    ("TEX_" ++ X.propName ++ "_map")).IsValid = c
  cases verboseOutput <;> cases a <;> cases b <;> cases c <;> simp

/-- The texture `handleBasicProperty` returns is the legacy texture of the spec,
and the fourth component of its vector is the legacy factor of the spec. -/
theorem handleBasicProperty_eq_legacy (fbxMaterial : FbxSurfaceMaterial)
    (textureLocations : TextureLocations) (colName facName : String) :
    (handleBasicProperty fbxMaterial textureLocations colName facName).1.2 =
        legacyTexture fbxMaterial textureLocations colName facName ∧
    (handleBasicProperty fbxMaterial textureLocations colName facName).1.1.w =
        legacyFactor fbxMaterial textureLocations facName := by
  unfold handleBasicProperty getSurfaceValues legacyTexture legacyFactor
  dsimp only
  rw [dropUnknown_eq_knownTexture, dropUnknown_eq_knownTexture]
  cases knownTexture textureLocations (fbxMaterial.FindProperty colName).GetSrcObject <;>
    cases knownTexture textureLocations (fbxMaterial.FindProperty facName).GetSrcObject <;>
    cases (fbxMaterial.FindProperty facName).IsValid <;>
    simp

/-- The structured branch yields the structured resolution of the spec. -/
theorem FromStructured_isStructuredResolution (verboseOutput : Bool)
    (fbxMaterial : FbxSurfaceMaterial) (textureLocations : TextureLocations)
    (res : FbxRoughMetMaterialInfo) :
    isStructuredResolution fbxMaterial textureLocations
      (FromStructured verboseOutput fbxMaterial textureLocations
        (fbxMaterial.FindProperty "Maya") res).1 := by
  refine ⟨?_, ?_, ?_, ?_, ?_, ?_⟩
  · intro X
    rw [FromStructured_slot, getTex_eq_structuredTexture]
  · show FbxVector4.xyz (FbxVector4.ofDouble3 (getVec _ "base_color")) = _
    unfold getVec FbxVector4.xyz FbxVector4.ofDouble3 structuredVector mayaChild
    rfl
  · show FbxVector4.xyz (FbxVector4.ofDouble3 (getVec _ "emissive")) = _
    unfold getVec FbxVector4.xyz FbxVector4.ofDouble3 structuredVector mayaChild
    rfl
  · rfl
  · rfl
  · rfl

/-- The legacy branch yields the legacy resolution of the spec on the record it is
given. -/
theorem FromLegacy_isLegacyResolution (fbxMaterial : FbxSurfaceMaterial)
    (textureLocations : TextureLocations) (res : FbxRoughMetMaterialInfo) :
    isLegacyResolution fbxMaterial textureLocations res
      (FromLegacy fbxMaterial textureLocations res).1 := by
  have hn : (getSurfaceVector fbxMaterial textureLocations sNormalMap).2 =
      knownTexture textureLocations (fbxMaterial.FindProperty sNormalMap).GetSrcObject :=
    dropUnknown_eq_knownTexture _ _
  have hs : (getSurfaceVector fbxMaterial textureLocations sSpecular).2 =
      knownTexture textureLocations (fbxMaterial.FindProperty sSpecular).GetSrcObject :=
    dropUnknown_eq_knownTexture _ _
  exact ⟨(handleBasicProperty_eq_legacy _ _ sDiffuse sDiffuseFactor).1,
    (handleBasicProperty_eq_legacy _ _ sDiffuse sDiffuseFactor).2,
    (handleBasicProperty_eq_legacy _ _ sEmissive sEmissiveFactor).1,
    (handleBasicProperty_eq_legacy _ _ sEmissive sEmissiveFactor).2,
    hn, hs, hs, hs, rfl, rfl, rfl⟩

/-! ## The claims -/

/-- C1: for every material and every known-textures map, in the structured and in
the legacy path, each of the six texture slots of the record `From` returns is
empty or a key of the supplied `textureLocations` map. -/
theorem C1_slots_are_known (newInfo : Constructor) (verboseOutput : Bool)
    (fbxMaterial : FbxSurfaceMaterial)
    (textureLocations : TextureLocations) :
    slotKnown textureLocations (From newInfo verboseOutput fbxMaterial textureLocations).1.texColor ∧
    slotKnown textureLocations (From newInfo verboseOutput fbxMaterial textureLocations).1.texEmissive ∧
    slotKnown textureLocations (From newInfo verboseOutput fbxMaterial textureLocations).1.texNormal ∧
    slotKnown textureLocations (From newInfo verboseOutput fbxMaterial textureLocations).1.texMetallic ∧
    slotKnown textureLocations (From newInfo verboseOutput fbxMaterial textureLocations).1.texRoughness ∧
    slotKnown textureLocations
      (From newInfo verboseOutput fbxMaterial textureLocations).1.texAmbientOcclusion := by
  by_cases h : isStructured fbxMaterial
  · rw [From_structured _ _ _ _ h]
    exact ⟨slotKnown_getTex _ _ _ _ _, slotKnown_getTex _ _ _ _ _, slotKnown_getTex _ _ _ _ _,
      slotKnown_getTex _ _ _ _ _, slotKnown_getTex _ _ _ _ _, slotKnown_getTex _ _ _ _ _⟩
  · rw [From_legacy _ _ _ _ h]
    exact ⟨slotKnown_handleBasicProperty _ _ _ _, slotKnown_handleBasicProperty _ _ _ _,
      slotKnown_getSurfaceVector _ _ _, slotKnown_getSurfaceVector _ _ _,
      slotKnown_getSurfaceVector _ _ _, slotKnown_getSurfaceVector _ _ _⟩

/-- C4: legacy path. The metallic, roughness and ambient-occlusion textures of
the output are identical; all three are the texture driving the specular property
when it is a key of the map, and all three are empty when the specular property
drives no texture or one that is not a key of the map. -/
theorem C4_specular_texture_packed (newInfo : Constructor) (verboseOutput : Bool)
    (fbxMaterial : FbxSurfaceMaterial)
    (textureLocations : TextureLocations) (hlegacy : ¬ isStructured fbxMaterial) :
    ((From newInfo verboseOutput fbxMaterial textureLocations).1.texMetallic =
        (From newInfo verboseOutput fbxMaterial textureLocations).1.texRoughness ∧
      (From newInfo verboseOutput fbxMaterial textureLocations).1.texRoughness =
        (From newInfo verboseOutput fbxMaterial textureLocations).1.texAmbientOcclusion) ∧
    (∀ t, (fbxMaterial.FindProperty sSpecular).GetSrcObject = some t →
      isKey textureLocations t →
        (From newInfo verboseOutput fbxMaterial textureLocations).1.texMetallic = some t ∧
        (From newInfo verboseOutput fbxMaterial textureLocations).1.texRoughness = some t ∧
        (From newInfo verboseOutput fbxMaterial textureLocations).1.texAmbientOcclusion = some t) ∧
    (((fbxMaterial.FindProperty sSpecular).GetSrcObject = none ∨
        ∃ t, (fbxMaterial.FindProperty sSpecular).GetSrcObject = some t ∧
          ¬ isKey textureLocations t) →
        (From newInfo verboseOutput fbxMaterial textureLocations).1.texMetallic = none ∧
        (From newInfo verboseOutput fbxMaterial textureLocations).1.texRoughness = none ∧
        (From newInfo verboseOutput fbxMaterial textureLocations).1.texAmbientOcclusion = none) := by
  rw [From_legacy _ _ _ _ hlegacy]
  refine ⟨⟨rfl, rfl⟩, ?_, ?_⟩
  · intro t ht hk
    have h : (getSurfaceVector fbxMaterial textureLocations sSpecular).2 = some t := by
      simp [getSurfaceVector, ht, dropUnknown_known _ _ hk]
    exact ⟨h, h, h⟩
  · intro hcase
    have h : (getSurfaceVector fbxMaterial textureLocations sSpecular).2 = none := by
      rcases hcase with hnone | ⟨t, ht, hk⟩
      · simp [getSurfaceVector, hnone, dropUnknown]
      · simp [getSurfaceVector, ht, dropUnknown_unknown _ _ hk]
    exact ⟨h, h, h⟩

theorem C4_specular_texture_packed_witness :
    ((From sentinelInfo false specularMaterial [(7, "orm.png")]).1.texMetallic = some 7 ∧
      (From sentinelInfo false specularMaterial [(7, "orm.png")]).1.texRoughness = some 7 ∧
      (From sentinelInfo false specularMaterial [(7, "orm.png")]).1.texAmbientOcclusion = some 7) ∧
    ((From sentinelInfo false specularMaterial []).1.texMetallic = none ∧
      (From sentinelInfo false specularMaterial []).1.texRoughness = none ∧
      (From sentinelInfo false specularMaterial []).1.texAmbientOcclusion = none) :=
  ⟨(C4_specular_texture_packed sentinelInfo false specularMaterial [(7, "orm.png")] (by decide)).2.1 7
      (by decide) ⟨"orm.png", by decide⟩,
    (C4_specular_texture_packed sentinelInfo false specularMaterial [] (by decide)).2.2
      (Or.inr ⟨7, by decide, fun h => by obtain ⟨loc, hloc⟩ := h; simp at hloc⟩)⟩

/-- C5: structured path. For each channel X, if the flag "use_X_map" is valid and
true and the property "TEX_X_map" is valid and driven by a texture T that is a key
of the map, then the output slot of X is T, for every value of the other
properties of the material (the channel's constant included). -/
theorem C5_enabled_known_texture (newInfo : Constructor) (verboseOutput : Bool)
    (fbxMaterial : FbxSurfaceMaterial)
    (textureLocations : TextureLocations) (X : Channel) (T : FbxFileTexture)
    (hstructured : isStructured fbxMaterial)
    (hvalid : (useFlag fbxMaterial X).IsValid = true)
    (htrue : (useFlag fbxMaterial X).GetBool = true)
    (htexvalid : (texProperty fbxMaterial X).IsValid = true)
    (htex : (texProperty fbxMaterial X).GetSrcObject = some T)
    (hknown : isKey textureLocations T) :
    X.slot (From newInfo verboseOutput fbxMaterial textureLocations).1 = some T := by
  rw [From_slot_structured _ _ _ _ _ hstructured]
  unfold useFlag at hvalid htrue
  unfold texProperty at htexvalid htex
  simp [getTex, hvalid, htrue, htexvalid, htex, dropUnknown_known _ _ hknown]

theorem C5_enabled_known_texture_witness :
    (From sentinelInfo false mayaMaterial [(3, "c.png"), (4, "m.png")]).1.texColor = some 3 :=
  C5_enabled_known_texture sentinelInfo false mayaMaterial [(3, "c.png"), (4, "m.png")] Channel.color 3
    (by decide) (by decide) (by decide) (by decide) (by decide) ⟨"c.png", by decide⟩

/-- C6: structured path. For each channel X whose flag "use_X_map" is valid and
true but whose property "TEX_X_map" is invalid, drives no texture, or drives a
texture that is not a key of the map, the output slot of X is empty, and the
constants of the output are the values of their named properties when valid, else
the default: (1,1,1) for "base_color" and "emissive", 0 for "emissive_intensity",
"metallic" and "roughness". -/
theorem C6_enabled_unknown_texture (newInfo : Constructor) (verboseOutput : Bool)
    (fbxMaterial : FbxSurfaceMaterial)
    (textureLocations : TextureLocations) (X : Channel)
    (hstructured : isStructured fbxMaterial)
    (hvalid : (useFlag fbxMaterial X).IsValid = true)
    (htrue : (useFlag fbxMaterial X).GetBool = true)
    (htex : (texProperty fbxMaterial X).IsValid = false ∨
      (texProperty fbxMaterial X).GetSrcObject = none ∨
      ∃ t, (texProperty fbxMaterial X).GetSrcObject = some t ∧ ¬ isKey textureLocations t) :
    X.slot (From newInfo verboseOutput fbxMaterial textureLocations).1 = none ∧
    (From newInfo verboseOutput fbxMaterial textureLocations).1.colBase.xyz =
      (if (mayaChild fbxMaterial "base_color").IsValid
        then (mayaChild fbxMaterial "base_color").GetDouble3 else ⟨1, 1, 1⟩) ∧
    (From newInfo verboseOutput fbxMaterial textureLocations).1.colEmissive.xyz =
      (if (mayaChild fbxMaterial "emissive").IsValid
        then (mayaChild fbxMaterial "emissive").GetDouble3 else ⟨1, 1, 1⟩) ∧
    (From newInfo verboseOutput fbxMaterial textureLocations).1.emissiveIntensity =
      (if (mayaChild fbxMaterial "emissive_intensity").IsValid
        then (mayaChild fbxMaterial "emissive_intensity").GetDouble else 0) ∧
    (From newInfo verboseOutput fbxMaterial textureLocations).1.metallic =
      (if (mayaChild fbxMaterial "metallic").IsValid
        then (mayaChild fbxMaterial "metallic").GetDouble else 0) ∧
    (From newInfo verboseOutput fbxMaterial textureLocations).1.roughness =
      (if (mayaChild fbxMaterial "roughness").IsValid
        then (mayaChild fbxMaterial "roughness").GetDouble else 0) := by
  refine ⟨?_, ?_⟩
  · rw [From_slot_structured _ _ _ _ _ hstructured]
    unfold useFlag at hvalid htrue
    unfold texProperty at htex
    rcases htex with hinv | hnone | ⟨t, ht, hk⟩
    · simp [getTex, hvalid, htrue, hinv]
    · simp [getTex, hvalid, htrue, hnone, dropUnknown]
    · simp [getTex, hvalid, htrue, ht, dropUnknown_unknown _ _ hk]
  · rw [From_structured _ _ _ _ hstructured]
    unfold mayaChild
    refine ⟨?_, ?_, rfl, rfl, rfl⟩
    · show FbxVector4.xyz (FbxVector4.ofDouble3 (getVec _ "base_color")) = _
      unfold getVec FbxVector4.xyz FbxVector4.ofDouble3
      rfl
    · show FbxVector4.xyz (FbxVector4.ofDouble3 (getVec _ "emissive")) = _
      unfold getVec FbxVector4.xyz FbxVector4.ofDouble3
      rfl

theorem C6_enabled_unknown_texture_witness :
    (From sentinelInfo false unexportedMaterial [(4, "m.png")]).1.texColor = none ∧
    (From sentinelInfo false unexportedMaterial [(4, "m.png")]).1.colBase.xyz = ⟨1 / 4, 1 / 2, 3 / 4⟩ ∧
    (From sentinelInfo false unexportedMaterial [(4, "m.png")]).1.colEmissive.xyz = ⟨1, 1, 1⟩ ∧
    (From sentinelInfo false unexportedMaterial [(4, "m.png")]).1.emissiveIntensity = 0 ∧
    (From sentinelInfo false unexportedMaterial [(4, "m.png")]).1.metallic = 1 / 2 ∧
    (From sentinelInfo false unexportedMaterial [(4, "m.png")]).1.roughness = 0 :=
  C6_enabled_unknown_texture sentinelInfo false unexportedMaterial [(4, "m.png")] Channel.color
    (by decide) (by decide) (by decide)
    (Or.inr (Or.inr ⟨3, by decide, fun h => by obtain ⟨loc, hloc⟩ := h; simp at hloc⟩))

/-- C7: structured path. For each channel X, if the flag "use_X_map" is absent
(invalid), or present and false, the output slot of X is empty, whatever the
property "TEX_X_map" holds (also a valid property driven by a key of the map). -/
theorem C7_disabled_channel_has_no_texture (newInfo : Constructor) (verboseOutput : Bool)
    (fbxMaterial : FbxSurfaceMaterial) (textureLocations : TextureLocations) (X : Channel)
    (hstructured : isStructured fbxMaterial)
    (hflag : (useFlag fbxMaterial X).IsValid = false ∨ (useFlag fbxMaterial X).GetBool = false) :
    X.slot (From newInfo verboseOutput fbxMaterial textureLocations).1 = none := by
  rw [From_slot_structured _ _ _ _ _ hstructured]
  unfold useFlag at hflag
  rcases hflag with h | h
  · simp [getTex, h]
  · by_cases hv : verboseOutput = true ∧
        ((fbxMaterial.FindProperty "Maya").FindHierarchical
          ("use_" ++ X.propName ++ "_map")).IsValid = true
    · simp [getTex, h, hv.1, hv.2]
    · simp only [getTex, h, Bool.and_false, Bool.and_eq_true]
      rw [if_neg (by decide), if_neg hv]

theorem C7_disabled_channel_has_no_texture_witness :
    (texProperty mayaMaterial Channel.metallic).GetSrcObject = some 4 ∧
    (texProperty mayaMaterial Channel.ao).GetSrcObject = some 3 ∧
    (From sentinelInfo true mayaMaterial [(3, "c.png"), (4, "m.png")]).1.texMetallic = none ∧
    (From sentinelInfo true mayaMaterial [(3, "c.png"), (4, "m.png")]).1.texAmbientOcclusion = none :=
  ⟨by decide, by decide,
    C7_disabled_channel_has_no_texture sentinelInfo true mayaMaterial [(3, "c.png"), (4, "m.png")]
      Channel.metallic (by decide) (Or.inr (by decide)),
    C7_disabled_channel_has_no_texture sentinelInfo true mayaMaterial [(3, "c.png"), (4, "m.png")]
      Channel.ao (by decide) (Or.inl (by decide))⟩

/-- C8, as stated, fails: under the structured convention, with the verbose
setting off, the flag "use_metallic_map" valid and false, `From` prints no note
(all it prints is the text of line 183). -/
theorem C8_counterexample :
    ¬ (∀ (newInfo : Constructor) (verboseOutput : Bool) (fbxMaterial : FbxSurfaceMaterial)
        (textureLocations : TextureLocations) (X : Channel),
        isStructured fbxMaterial → (useFlag fbxMaterial X).IsValid = true →
        (useFlag fbxMaterial X).GetBool = false →
          noteMsg X.propName fbxMaterial.GetName ∈
            (From newInfo verboseOutput fbxMaterial textureLocations).2) := by
  intro h
  have h1 := h sentinelInfo false mayaMaterial [] Channel.metallic (by decide) (by decide) (by decide)
  have h2 : (From sentinelInfo false mayaMaterial []).2 = ["HELLO WORLD!"] := by decide
  rw [h2] at h1
  exact absurd h1 (by decide)

/-- C8, amended: under the structured convention, for every channel X whose flag
"use_X_map" is valid and false, the note that the channel is disabled is printed
exactly when the global verbose setting is on; for a channel whose flag is absent
the note is not printed. -/
theorem C8_note_when_verbose (newInfo : Constructor) (verboseOutput : Bool)
    (fbxMaterial : FbxSurfaceMaterial)
    (textureLocations : TextureLocations) (X : Channel)
    (hstructured : isStructured fbxMaterial) :
    ((useFlag fbxMaterial X).IsValid = true → (useFlag fbxMaterial X).GetBool = false →
      (noteMsg X.propName fbxMaterial.GetName ∈
          (From newInfo verboseOutput fbxMaterial textureLocations).2 ↔ verboseOutput = true)) ∧
    ((useFlag fbxMaterial X).IsValid = false →
      noteMsg X.propName fbxMaterial.GetName ∉
        (From newInfo verboseOutput fbxMaterial textureLocations).2) := by
  rw [From_structured _ _ _ _ hstructured, note_mem_FromStructured]
  constructor
  · intro hv hb
    simp [hv, hb]
  · intro hv
    simp [hv]

theorem C8_note_when_verbose_witness :
    (noteMsg "metallic" "stingray1" ∈ (From sentinelInfo true mayaMaterial []).2 ∧
      noteMsg "metallic" "stingray1" ∉ (From sentinelInfo false mayaMaterial []).2) ∧
    noteMsg "normal" "stingray1" ∉ (From sentinelInfo true mayaMaterial []).2 :=
  ⟨⟨((C8_note_when_verbose sentinelInfo true mayaMaterial [] Channel.metallic (by decide)).1
        (by decide) (by decide)).2 rfl,
      fun h => absurd
        (((C8_note_when_verbose sentinelInfo false mayaMaterial [] Channel.metallic (by decide)).1
          (by decide) (by decide)).1 h) (by decide)⟩,
    (C8_note_when_verbose sentinelInfo true mayaMaterial [] Channel.normal (by decide)).2 (by decide)⟩

/-- C10: a texture that is not a key of the map is treated as if it did not exist.
For every material M, map K and property p whose driving texture t is not a key of
K, `From` returns for M with the texture detached from p (same validity and
constants) the record, and the messages, it returns for M. This holds for every
flat property (the six legacy properties among them) and for every hierarchical
property under "Maya" (the "TEX_X_map" properties among them). -/
theorem C10_unknown_texture_is_absent (newInfo : Constructor) (verboseOutput : Bool)
    (fbxMaterial : FbxSurfaceMaterial) (textureLocations : TextureLocations) (p : String)
    (t : FbxFileTexture) (hunknown : ¬ isKey textureLocations t) :
    ((fbxMaterial.FindProperty p).GetSrcObject = some t →
      From newInfo verboseOutput (detachFlat fbxMaterial p) textureLocations =
        From newInfo verboseOutput fbxMaterial textureLocations) ∧
    ((mayaChild fbxMaterial p).GetSrcObject = some t →
      From newInfo verboseOutput (detachNested fbxMaterial p) textureLocations =
        From newInfo verboseOutput fbxMaterial textureLocations) :=
  ⟨fun h => From_detachFlat newInfo verboseOutput fbxMaterial textureLocations p t h hunknown,
    fun h => From_detachNested newInfo verboseOutput fbxMaterial textureLocations p t h hunknown⟩

theorem C10_unknown_texture_is_absent_witness :
    ((conflictMaterial.FindProperty sDiffuse).GetSrcObject = some 1 ∧
      ((detachFlat conflictMaterial sDiffuse).FindProperty sDiffuse).GetSrcObject = none ∧
      From sentinelInfo false (detachFlat conflictMaterial sDiffuse) [(2, "b.png")] =
        From sentinelInfo false conflictMaterial [(2, "b.png")]) ∧
    ((texProperty unexportedMaterial Channel.color).GetSrcObject = some 3 ∧
      (texProperty (detachNested unexportedMaterial "TEX_color_map") Channel.color).GetSrcObject
        = none ∧
      From sentinelInfo false (detachNested unexportedMaterial "TEX_color_map") [(4, "m.png")] =
        From sentinelInfo false unexportedMaterial [(4, "m.png")]) :=
  ⟨⟨by decide, by decide,
      (C10_unknown_texture_is_absent sentinelInfo false conflictMaterial [(2, "b.png")] sDiffuse 1
        (fun h => by obtain ⟨loc, hloc⟩ := h; simp at hloc)).1 (by decide)⟩,
    ⟨by decide, by decide,
      (C10_unknown_texture_is_absent sentinelInfo false unexportedMaterial [(4, "m.png")] "TEX_color_map" 3
        (fun h => by obtain ⟨loc, hloc⟩ := h; simp at hloc)).2 (by decide)⟩⟩

/-- C12: structured path. The first three components of colBase are the value of
"base_color" if valid, else (1,1,1); those of colEmissive are the value of
"emissive" if valid, else (1,1,1); emissiveIntensity, metallic and roughness are
the values of "emissive_intensity", "metallic" and "roughness" if valid, else 0.
Two structured materials that agree on these five properties get the same five
constants, whatever their flags, their textures, the map and the verbose setting
are. -/
theorem C12_constants_independent (newInfo : Constructor) (verboseOutput verboseOutput2 : Bool)
    (fbxMaterial fbxMaterial2 : FbxSurfaceMaterial)
    (textureLocations textureLocations2 : TextureLocations)
    (hstructured : isStructured fbxMaterial) (hstructured2 : isStructured fbxMaterial2) :
    ((From newInfo verboseOutput fbxMaterial textureLocations).1.colBase.xyz =
        (if (mayaChild fbxMaterial "base_color").IsValid
          then (mayaChild fbxMaterial "base_color").GetDouble3 else ⟨1, 1, 1⟩) ∧
      (From newInfo verboseOutput fbxMaterial textureLocations).1.colEmissive.xyz =
        (if (mayaChild fbxMaterial "emissive").IsValid
          then (mayaChild fbxMaterial "emissive").GetDouble3 else ⟨1, 1, 1⟩) ∧
      (From newInfo verboseOutput fbxMaterial textureLocations).1.emissiveIntensity =
        (if (mayaChild fbxMaterial "emissive_intensity").IsValid
          then (mayaChild fbxMaterial "emissive_intensity").GetDouble else 0) ∧
      (From newInfo verboseOutput fbxMaterial textureLocations).1.metallic =
        (if (mayaChild fbxMaterial "metallic").IsValid
          then (mayaChild fbxMaterial "metallic").GetDouble else 0) ∧
      (From newInfo verboseOutput fbxMaterial textureLocations).1.roughness =
        (if (mayaChild fbxMaterial "roughness").IsValid
          then (mayaChild fbxMaterial "roughness").GetDouble else 0)) ∧
    ((∀ name ∈ constantNames, mayaChild fbxMaterial2 name = mayaChild fbxMaterial name) →
      constantsOf (From newInfo verboseOutput2 fbxMaterial2 textureLocations2).1 =
        constantsOf (From newInfo verboseOutput fbxMaterial textureLocations).1) := by
  rw [From_structured _ _ _ _ hstructured, From_structured _ _ _ _ hstructured2]
  constructor
  · unfold mayaChild
    refine ⟨?_, ?_, rfl, rfl, rfl⟩
    · show FbxVector4.xyz (FbxVector4.ofDouble3 (getVec _ "base_color")) = _
      unfold getVec FbxVector4.xyz FbxVector4.ofDouble3
      rfl
    · show FbxVector4.xyz (FbxVector4.ofDouble3 (getVec _ "emissive")) = _
      unfold getVec FbxVector4.xyz FbxVector4.ofDouble3
      rfl
  · intro hsame
    have h1 := hsame "base_color" (by simp [constantNames])
    have h2 := hsame "emissive" (by simp [constantNames])
    have h3 := hsame "emissive_intensity" (by simp [constantNames])
    have h4 := hsame "metallic" (by simp [constantNames])
    have h5 := hsame "roughness" (by simp [constantNames])
    unfold mayaChild at h1 h2 h3 h4 h5
    simp only [constantsOf, FromStructured, getVec, getVal, h1, h2, h3, h4, h5]

theorem C12_constants_independent_witness :
    ((From sentinelInfo true mayaMaterial [(3, "c.png"), (4, "m.png")]).1.colBase.xyz =
        ⟨1 / 4, 1 / 2, 3 / 4⟩ ∧
      (From sentinelInfo true mayaMaterial [(3, "c.png"), (4, "m.png")]).1.colEmissive.xyz = ⟨1, 1, 1⟩ ∧
      (From sentinelInfo true mayaMaterial [(3, "c.png"), (4, "m.png")]).1.emissiveIntensity = 0 ∧
      (From sentinelInfo true mayaMaterial [(3, "c.png"), (4, "m.png")]).1.metallic = 1 / 2 ∧
      (From sentinelInfo true mayaMaterial [(3, "c.png"), (4, "m.png")]).1.roughness = 0) ∧
    constantsOf (From sentinelInfo false unexportedMaterial []).1 =
      constantsOf (From sentinelInfo true mayaMaterial [(3, "c.png"), (4, "m.png")]).1 :=
  have h := C12_constants_independent sentinelInfo true false mayaMaterial unexportedMaterial
    [(3, "c.png"), (4, "m.png")] [] (by decide) (by decide)
  ⟨h.1, h.2 (fun name hname => by
    simp only [constantNames, List.mem_cons, List.mem_singleton, List.not_mem_nil,
      or_false] at hname
    rcases hname with rfl | rfl | rfl | rfl | rfl <;> rfl)⟩

set_option maxRecDepth 20000

/-- C13, evaluated on the code: for the legacy material named "lambert1" whose
diffuse and emissive pairs are each driven by the known textures 1 (colour) and 2
(factor), the two warnings printed carry the literal "asdf" in the place of the
material; each names the discarded factor property, and neither contains the name
of the material. -/
theorem C13_warning_prints_asdf :
    conflictMaterial.GetName = "lambert1" ∧
    (From sentinelInfo false conflictMaterial [(1, "a.png"), (2, "b.png")]).2 =
      ["Warning: Mat [asdf]: Can't handle both DiffuseColor and DiffuseFactor textures; discarding DiffuseFactor.\n",
       "Warning: Mat [asdf]: Can't handle both EmissiveColor and EmissiveFactor textures; discarding EmissiveFactor.\n"] ∧
    (∀ msg ∈ (From sentinelInfo false conflictMaterial [(1, "a.png"), (2, "b.png")]).2,
      ¬ containsText msg conflictMaterial.GetName) ∧
    containsText (conflictMsg sDiffuse sDiffuseFactor) sDiffuseFactor ∧
    containsText (conflictMsg sEmissive sEmissiveFactor) sEmissiveFactor := by
  refine ⟨by decide, by decide, ?_, by decide, by decide⟩
  have h : (From sentinelInfo false conflictMaterial [(1, "a.png"), (2, "b.png")]).2 =
      [conflictMsg sDiffuse sDiffuseFactor, conflictMsg sEmissive sEmissiveFactor] := by
    decide
  rw [h]
  decide

/-- C14: the map is used as a membership test only. For every material and any
two maps with the same keys (whatever their location strings), `From` returns
equal records and prints equal messages. -/
theorem C14_membership_only (newInfo : Constructor) (verboseOutput : Bool)
    (fbxMaterial : FbxSurfaceMaterial)
    (textureLocations1 textureLocations2 : TextureLocations)
    (hkeys : sameKeys textureLocations1 textureLocations2) :
    From newInfo verboseOutput fbxMaterial textureLocations1 =
      From newInfo verboseOutput fbxMaterial textureLocations2 := by
  have h := dropUnknown_sameKeys textureLocations1 textureLocations2 hkeys
  simp only [From, FromLegacy, FromStructured, handleBasicProperty, getSurfaceValues,
    getSurfaceVector, getTex, h]

theorem C14_membership_only_witness :
    From sentinelInfo true conflictMaterial [(1, "a.png"), (2, "b.png")] =
      From sentinelInfo true conflictMaterial [(2, "out/two.jpg"), (1, "out/one.jpg"), (2, "b.png")] :=
  C14_membership_only sentinelInfo true conflictMaterial [(1, "a.png"), (2, "b.png")]
    [(2, "out/two.jpg"), (1, "out/one.jpg"), (2, "b.png")]
    (fun t => by
      simp only [isKey, List.mem_cons, Prod.mk.injEq, List.mem_singleton, List.not_mem_nil,
        or_false, exists_or, exists_and_left, exists_eq, and_true]
      tauto)

/-- C15: the declared shading model never changes the result. For every material
and every other shading-model name (empty or not), `From` returns the same record
for the material and for the material with that name declared, in the structured
and in the legacy path. -/
theorem C15_shading_model_ignored (newInfo : Constructor) (verboseOutput : Bool)
    (fbxMaterial : FbxSurfaceMaterial)
    (textureLocations : TextureLocations) (shadingModel : FbxString) :
    (From newInfo verboseOutput (withShadingModel fbxMaterial shadingModel) textureLocations).1 =
      (From newInfo verboseOutput fbxMaterial textureLocations).1 := by
  by_cases h : isStructured fbxMaterial
  · have h2 : isStructured (withShadingModel fbxMaterial shadingModel) := h
    rw [From_structured _ _ _ _ h, From_structured _ _ _ _ h2]
    rfl
  · have h2 : ¬ isStructured (withShadingModel fbxMaterial shadingModel) := h
    rw [From_legacy _ _ _ _ h, From_legacy _ _ _ _ h2]
    rfl

/-- C16: legacy path. When the colour sub-property of a paired channel is driven
by a key of the map, its constant is not read: the resolved vector4 is (f,f,f,f)
with f the resolved factor, whatever constant the colour property holds. When the
factor sub-property is driven by a key of the map, the factor is 1: the resolved
vector4 is (c0,c1,c2,1) with c the resolved colour. This holds for the diffuse
pair (colBase) and for the emissive pair (colEmissive). -/
theorem C16_textured_sub_property (newInfo : Constructor) (verboseOutput : Bool)
    (fbxMaterial : FbxSurfaceMaterial)
    (textureLocations : TextureLocations) (t : FbxFileTexture)
    (hlegacy : ¬ isStructured fbxMaterial) (hknown : isKey textureLocations t) :
    ((fbxMaterial.FindProperty sDiffuse).GetSrcObject = some t →
      (From newInfo verboseOutput fbxMaterial textureLocations).1.colBase =
        ⟨resolvedFactor fbxMaterial textureLocations sDiffuseFactor,
          resolvedFactor fbxMaterial textureLocations sDiffuseFactor,
          resolvedFactor fbxMaterial textureLocations sDiffuseFactor,
          resolvedFactor fbxMaterial textureLocations sDiffuseFactor⟩) ∧
    ((fbxMaterial.FindProperty sDiffuseFactor).GetSrcObject = some t →
      (From newInfo verboseOutput fbxMaterial textureLocations).1.colBase =
        ⟨(resolvedColor fbxMaterial textureLocations sDiffuse).x,
          (resolvedColor fbxMaterial textureLocations sDiffuse).y,
          (resolvedColor fbxMaterial textureLocations sDiffuse).z, 1⟩) ∧
    ((fbxMaterial.FindProperty sEmissive).GetSrcObject = some t →
      (From newInfo verboseOutput fbxMaterial textureLocations).1.colEmissive =
        ⟨resolvedFactor fbxMaterial textureLocations sEmissiveFactor,
          resolvedFactor fbxMaterial textureLocations sEmissiveFactor,
          resolvedFactor fbxMaterial textureLocations sEmissiveFactor,
          resolvedFactor fbxMaterial textureLocations sEmissiveFactor⟩) ∧
    ((fbxMaterial.FindProperty sEmissiveFactor).GetSrcObject = some t →
      (From newInfo verboseOutput fbxMaterial textureLocations).1.colEmissive =
        ⟨(resolvedColor fbxMaterial textureLocations sEmissive).x,
          (resolvedColor fbxMaterial textureLocations sEmissive).y,
          (resolvedColor fbxMaterial textureLocations sEmissive).z, 1⟩) := by
  rw [From_legacy _ _ _ _ hlegacy]
  refine ⟨?_, ?_, ?_, ?_⟩
  · intro h
    show (handleBasicProperty fbxMaterial textureLocations sDiffuse sDiffuseFactor).1.1 = _
    rw [handleBasicProperty_value, resolvedColor_of_known _ _ _ t h hknown]
    simp
  · intro h
    show (handleBasicProperty fbxMaterial textureLocations sDiffuse sDiffuseFactor).1.1 = _
    rw [handleBasicProperty_value, resolvedFactor_of_known _ _ _ t h hknown]
    simp
  · intro h
    show (handleBasicProperty fbxMaterial textureLocations sEmissive sEmissiveFactor).1.1 = _
    rw [handleBasicProperty_value, resolvedColor_of_known _ _ _ t h hknown]
    simp
  · intro h
    show (handleBasicProperty fbxMaterial textureLocations sEmissive sEmissiveFactor).1.1 = _
    rw [handleBasicProperty_value, resolvedFactor_of_known _ _ _ t h hknown]
    simp

theorem C16_textured_sub_property_witness :
    (From sentinelInfo false mixedMaterial [(1, "a.png"), (2, "b.png")]).1.colBase = ⟨3, 3, 3, 3⟩ ∧
    (From sentinelInfo false mixedMaterial [(1, "a.png"), (2, "b.png")]).1.colEmissive =
      ⟨1 / 4, 1 / 2, 3 / 4, 1⟩ := by
  have h1 := (C16_textured_sub_property sentinelInfo false mixedMaterial [(1, "a.png"), (2, "b.png")] 1
    (by decide) ⟨"a.png", by decide⟩).1 (by decide)
  have h2 := (C16_textured_sub_property sentinelInfo false mixedMaterial [(1, "a.png"), (2, "b.png")] 2
    (by decide) ⟨"b.png", by decide⟩).2.2.2 (by decide)
  have hf : resolvedFactor mixedMaterial [(1, "a.png"), (2, "b.png")] sDiffuseFactor = 3 := by
    decide
  have hc : resolvedColor mixedMaterial [(1, "a.png"), (2, "b.png")] sEmissive =
      ⟨1 / 4, 1 / 2, 3 / 4⟩ := by
    rfl
  rw [hf] at h1
  rw [hc] at h2
  exact ⟨h1, h2⟩

/-- C17, evaluated on the code: a structured material with an empty shading-model
name and no flag at all makes `From` print the text of line 183, with the verbose
setting off and on; and with the verbose setting on, the flag "use_specular_map"
valid and false adds the note of the call `getTex("specular")` of line 181. -/
theorem C17_structured_prints_more :
    isStructured bareMaterial ∧ bareMaterial.ShadingModel = "" ∧
    (∀ name, (mayaChild bareMaterial name).IsValid = false) ∧
    (From sentinelInfo false bareMaterial []).2 = ["HELLO WORLD!"] ∧
    (From sentinelInfo true bareMaterial []).2 = ["HELLO WORLD!"] ∧
    isStructured specularFlagMaterial ∧ specularFlagMaterial.ShadingModel = "" ∧
    (∀ X : Channel, (useFlag specularFlagMaterial X).IsValid = false) ∧
    (From sentinelInfo true specularFlagMaterial []).2 =
      ["Note: Property 'specular' of material 'stingray3' exists, but is flagged as 'do not use'.\n",
       "HELLO WORLD!"] := by
  refine ⟨by decide, by decide, fun _ => rfl, by decide, by decide, by decide, by decide, ?_,
    by decide⟩
  intro X
  cases X <;> decide

/-- C18: legacy path, normal map. texNormal is the texture driving the normal-map
property when it is a key of the map, and is empty when the property drives no
texture or one that is not a key; and whatever constants the normal-map property
holds, `From` returns the same record. -/
theorem C18_normal_map (newInfo : Constructor) (verboseOutput : Bool)
    (fbxMaterial : FbxSurfaceMaterial)
    (textureLocations : TextureLocations) (hlegacy : ¬ isStructured fbxMaterial) :
    (∀ t, (fbxMaterial.FindProperty sNormalMap).GetSrcObject = some t →
      isKey textureLocations t →
        (From newInfo verboseOutput fbxMaterial textureLocations).1.texNormal = some t) ∧
    (((fbxMaterial.FindProperty sNormalMap).GetSrcObject = none ∨
        ∃ t, (fbxMaterial.FindProperty sNormalMap).GetSrcObject = some t ∧
          ¬ isKey textureLocations t) →
        (From newInfo verboseOutput fbxMaterial textureLocations).1.texNormal = none) ∧
    (∀ (b : Bool) (d : FbxDouble) (v : FbxDouble3),
      (From newInfo verboseOutput (withConstants fbxMaterial sNormalMap b d v) textureLocations).1 =
        (From newInfo verboseOutput fbxMaterial textureLocations).1) := by
  refine ⟨?_, ?_, ?_⟩
  · intro t ht hk
    rw [From_legacy _ _ _ _ hlegacy]
    show (getSurfaceVector fbxMaterial textureLocations sNormalMap).2 = some t
    simp [getSurfaceVector, ht, dropUnknown_known _ _ hk]
  · intro hcase
    rw [From_legacy _ _ _ _ hlegacy]
    show (getSurfaceVector fbxMaterial textureLocations sNormalMap).2 = none
    rcases hcase with hnone | ⟨t, ht, hk⟩
    · simp [getSurfaceVector, hnone, dropUnknown]
    · simp [getSurfaceVector, ht, dropUnknown_unknown _ _ hk]
  · intro b d v
    rw [From_withConstants_normalMap]

theorem C18_normal_map_witness :
    (From sentinelInfo false mixedMaterial [(3, "n.png")]).1.texNormal = some 3 ∧
    (From sentinelInfo false mixedMaterial [(1, "a.png")]).1.texNormal = none ∧
    (From sentinelInfo false (withConstants mixedMaterial sNormalMap true 7 ⟨0, 0, 0⟩) [(3, "n.png")]).1 =
      (From sentinelInfo false mixedMaterial [(3, "n.png")]).1 :=
  ⟨(C18_normal_map sentinelInfo false mixedMaterial [(3, "n.png")] (by decide)).1 3 (by decide)
      ⟨"n.png", by decide⟩,
    (C18_normal_map sentinelInfo false mixedMaterial [(1, "a.png")] (by decide)).2.1
      (Or.inr ⟨3, by decide, fun h => by obtain ⟨loc, hloc⟩ := h; simp at hloc⟩),
    (C18_normal_map sentinelInfo false mixedMaterial [(3, "n.png")] (by decide)).2.2 true 7 ⟨0, 0, 0⟩⟩

/-- C19: legacy path. The legacy branch leaves the metallic, roughness and
emissive-intensity scalars of the record it is given as they were, for every
material and map; so these three scalars of the record `From` returns are those of
the freshly constructed record, and no property of the material has an effect on
them. -/
theorem C19_legacy_scalars_untouched (newInfo : Constructor) (verboseOutput : Bool)
    (fbxMaterial : FbxSurfaceMaterial)
    (textureLocations : TextureLocations) (hlegacy : ¬ isStructured fbxMaterial) :
    (∀ res : FbxRoughMetMaterialInfo,
      (FromLegacy fbxMaterial textureLocations res).1.metallic = res.metallic ∧
      (FromLegacy fbxMaterial textureLocations res).1.roughness = res.roughness ∧
      (FromLegacy fbxMaterial textureLocations res).1.emissiveIntensity =
        res.emissiveIntensity) ∧
    ((From newInfo verboseOutput fbxMaterial textureLocations).1.metallic =
        (newInfo fbxMaterial.GetName FBX_SHADER_METROUGH).metallic ∧
      (From newInfo verboseOutput fbxMaterial textureLocations).1.roughness =
        (newInfo fbxMaterial.GetName FBX_SHADER_METROUGH).roughness ∧
      (From newInfo verboseOutput fbxMaterial textureLocations).1.emissiveIntensity =
        (newInfo fbxMaterial.GetName
          FBX_SHADER_METROUGH).emissiveIntensity) := by
  rw [From_legacy _ _ _ _ hlegacy]
  exact ⟨fun _ => ⟨rfl, rfl, rfl⟩, rfl, rfl, rfl⟩

theorem C19_legacy_scalars_untouched_witness :
    (From sentinelInfo false specularMaterial [(7, "orm.png")]).1.metallic =
        (sentinelInfo "phong1" FBX_SHADER_METROUGH).metallic ∧
      (From sentinelInfo false specularMaterial [(7, "orm.png")]).1.roughness =
        (sentinelInfo "phong1" FBX_SHADER_METROUGH).roughness ∧
      (From sentinelInfo false specularMaterial [(7, "orm.png")]).1.emissiveIntensity =
        (sentinelInfo "phong1" FBX_SHADER_METROUGH).emissiveIntensity :=
  (C19_legacy_scalars_untouched sentinelInfo false specularMaterial [(7, "orm.png")] (by decide)).2

end FBX2glTF
